import Mathlib

/-!
Shallow embedding of the offline exam-barcode validation app
(Exam-Validation-Using-Barcode).

The Dexie/IndexedDB database is modelled as a record of lists, one per
table.  `Table.get`/`where(...).first()` become `List.find?`,
`Table.add` becomes list append, `Table.update` maps a field update over
the rows with the matching id, and `Table.delete` filters the id out.
JavaScript `Date` values are modelled as `Int` millisecond timestamps;
the ambient clock `new Date()` is passed in as an explicit `now`
parameter, and `crypto.randomUUID()` results are passed in as explicit
id parameters.  `JSON.stringify`/`btoa` serialisations are injective on
the records the app ever serialises, so the serialised payloads are
modelled by the records themselves.  A write journal on the database
state records the order of the mutating store calls, so that ordering
claims (scan-log row written before sync-queue row) are statable.
-/

set_option maxHeartbeats 1000000

/-- Exam record (src/db/schema.ts, interface Exam).  `expiryDate` is a
date string in the source, parsed with `new Date(...)` before every
comparison; here it is the parsed timestamp. -/
structure Exam where
  id : String
  title : String
  subject : String
  date : String
  expiryDate : Int
  createdAt : Int
  updatedAt : Int
  syncedAt : Option Int := none
deriving DecidableEq, Repr

/-- Barcode record (src/db/schema.ts, interface Barcode). -/
structure Barcode where
  id : String
  code : String
  examId : String
  studentId : String
  isValid : Bool
  createdAt : Int
  updatedAt : Int
  syncedAt : Option Int := none
deriving DecidableEq, Repr

/-- Scan-log status values (src/db/schema.ts, ScanLog.status). -/
inductive ScanStatus where
  | valid
  | invalid
  | expired
  | unknown
deriving DecidableEq, Repr

/-- Sync status values (src/db/schema.ts, ScanLog.syncStatus). -/
inductive SyncStatus where
  | pending
  | synced
  | failed
deriving DecidableEq, Repr

/-- ScanLog record (src/db/schema.ts, interface ScanLog). -/
structure ScanLog where
  id : String
  barcodeId : String
  examId : String
  studentId : String
  status : ScanStatus
  scannedBy : String
  scannedAt : Int
  location : Option String := none
  deviceId : Option String := none
  syncStatus : SyncStatus
  syncedAt : Option Int := none
  notes : Option String := none
deriving DecidableEq, Repr

/-- User roles (src/db/schema.ts, User.role). -/
inductive Role where
  | admin
  | examiner
  | invigilator
deriving DecidableEq, Repr

/-- User record (src/db/schema.ts, interface User). -/
structure User where
  id : String
  username : String
  passwordHash : String
  role : Role
  lastLogin : Int
  syncedAt : Option Int := none
deriving DecidableEq, Repr

/-- Sync-queue actions (src/db/schema.ts, SyncQueue.action). -/
inductive SyncAction where
  | create
  | update
  | delete
deriving DecidableEq, Repr

/-- Target tables of a sync-queue item (src/db/schema.ts, SyncQueue.table). -/
inductive TableName where
  | exams
  | barcodes
  | scanLogs
  | users
  | examMarks
deriving DecidableEq, Repr

/-- Serialised payload stored in SyncQueue.data.  The source stores
`JSON.stringify(data)`, which is injective on the records the app
serialises, so the payload is modelled by the record itself.  The only
call site among the embedded operations serialises a ScanLog. -/
inductive SyncPayload where
  | scanLogRecord (l : ScanLog)
  | otherRecord (s : String)
deriving DecidableEq, Repr

/-- SyncQueue record (src/db/schema.ts, interface SyncQueue). -/
structure SyncQueueItem where
  id : String
  action : SyncAction
  table : TableName
  recordId : String
  data : SyncPayload
  attempts : Nat
  createdAt : Int
  lastAttempt : Option Int := none
deriving DecidableEq, Repr

/-- Journal entries recording, in order, the mutating store calls an
operation performs.  Pure observation added by the embedding; used to
state ordering properties such as "the scan-log row is written before
the sync-queue row". -/
inductive DBEvent where
  | scanLogAdded (l : ScanLog)
  | syncQueueAdded (q : SyncQueueItem)
  | syncQueueDeleted (id : String)
  | scanLogSyncMarked (recordId : String) (now : Int)
  | lastLoginUpdated (userId : String) (now : Int)
  | seeded
deriving DecidableEq, Repr

/-- The local database (class ExamDatabase in src/db/schema.ts): one
list per table, plus the write journal.  The examMarks table is
carried for completeness but no claim-relevant operation touches it. -/
structure DB where
  exams : List Exam
  barcodes : List Barcode
  scanLogs : List ScanLog
  users : List User
  syncQueue : List SyncQueueItem
  journal : List DBEvent := []
deriving DecidableEq, Repr

/-- `db.scanLogs.add(log)` (Dexie Table.add = insert row). -/
def DB.scanLogsAdd (db : DB) (l : ScanLog) : DB :=
  { db with scanLogs := db.scanLogs ++ [l],
            journal := db.journal ++ [DBEvent.scanLogAdded l] }

/-- `db.syncQueue.add(item)` (Dexie Table.add = insert row). -/
def DB.syncQueueAdd (db : DB) (q : SyncQueueItem) : DB :=
  { db with syncQueue := db.syncQueue ++ [q],
            journal := db.journal ++ [DBEvent.syncQueueAdded q] }

/-- `db.syncQueue.delete(id)` (Dexie Table.delete by primary key). -/
def DB.syncQueueRemove (db : DB) (qid : String) : DB :=
  { db with syncQueue := db.syncQueue.filter (fun q => !(q.id == qid)),
            journal := db.journal ++ [DBEvent.syncQueueDeleted qid] }

/-- Update applied by syncData to a scan-log row:
`db.scanLogs.update(recordId, { syncStatus: 'synced', syncedAt: new Date() })`. -/
def scanLogSyncUpdate (now : Int) (recordId : String) (l : ScanLog) : ScanLog :=
  if l.id == recordId then
    { l with syncStatus := SyncStatus.synced, syncedAt := some now }
  else l

/-- `db.scanLogs.update(recordId, { syncStatus: 'synced', syncedAt })`. -/
def DB.scanLogsMarkSynced (db : DB) (recordId : String) (now : Int) : DB :=
  { db with scanLogs := db.scanLogs.map (scanLogSyncUpdate now recordId),
            journal := db.journal ++ [DBEvent.scanLogSyncMarked recordId now] }

/-- `db.users.update(user.id, { lastLogin: new Date() })`. -/
def DB.usersUpdateLastLogin (db : DB) (userId : String) (now : Int) : DB :=
  { db with users := db.users.map (fun u =>
      if u.id == userId then { u with lastLogin := now } else u),
            journal := db.journal ++ [DBEvent.lastLoginUpdated userId now] }

/-- addToSyncQueue (src/db/schema.ts lines 99-114): enqueue a mutation
with a fresh uuid, `attempts: 0` and `createdAt: new Date()`. -/
def addToSyncQueue (db : DB) (qId : String) (now : Int) (action : SyncAction)
    (tbl : TableName) (recordId : String) (payload : SyncPayload) : DB :=
  db.syncQueueAdd
    { id := qId, action := action, table := tbl, recordId := recordId,
      data := payload, attempts := 0, createdAt := now, lastAttempt := none }

/-- isExamExpired (src/db/schema.ts lines 116-122): a missing exam is
treated as expired; otherwise the parsed expiry date is compared
strictly against the current time. -/
def isExamExpired (db : DB) (now : Int) (examId : String) : Bool :=
  match db.exams.find? (fun e => e.id == examId) with
  | none => true
  | some exam => decide (exam.expiryDate < now)

/-- Result shape of validateBarcode. -/
structure ValidationResult where
  isValid : Bool
  barcode : Option Barcode := none
  exam : Option Exam := none
  message : String
deriving DecidableEq, Repr

/-- validateBarcode (src/db/schema.ts lines 124-151): look the code up,
check the validity flag, look the exam up, check expiry; return at the
first failing check. -/
def validateBarcode (db : DB) (now : Int) (code : String) : ValidationResult :=
  match db.barcodes.find? (fun b => b.code == code) with
  | none => { isValid := false, message := "Barcode not found in database" }
  | some barcode =>
    if !barcode.isValid then
      { isValid := false, barcode := some barcode,
        message := "Barcode marked as invalid" }
    else
      match db.exams.find? (fun e => e.id == barcode.examId) with
      | none => { isValid := false, barcode := some barcode,
                  message := "Associated exam not found" }
      | some exam =>
        if isExamExpired db now exam.id then
          { isValid := false, barcode := some barcode, exam := some exam,
            message := "Exam has expired" }
        else
          { isValid := true, barcode := some barcode, exam := some exam,
            message := "Barcode is valid" }

/-- `pat` is a character-list prefix of `l` (helper for the embedding of
JavaScript String.prototype.includes). -/
def listStartsWith (pat l : List Char) : Bool :=
  match pat, l with
  | [], _ => true
  | _ :: _, [] => false
  | p :: ps, c :: cs => p == c && listStartsWith ps cs

/-- `pat` occurs as a contiguous run somewhere in `l`. -/
def listHasRun (pat l : List Char) : Bool :=
  match l with
  | [] => listStartsWith pat []
  | _ :: cs => listStartsWith pat l || listHasRun pat cs

/-- JavaScript `s.includes(pat)`: substring containment. -/
def jsIncludes (s pat : String) : Bool :=
  listHasRun pat.data s.data

/-- JavaScript string truthiness fallback `o?.f || 'unknown'`: a missing
record or an empty (falsy) string field falls back to the default. -/
def jsOrDefault (o : Option String) (d : String) : String :=
  match o with
  | none => d
  | some s => if s == "" then d else s

/-- Result shape of processScan. -/
structure ScanResult where
  success : Bool
  message : String
  scanLog : Option ScanLog := none
  examName : Option String := none
  studentId : Option String := none
deriving DecidableEq, Repr

/-- processScan (src/utils/scanner.ts lines 149-199): validate the code,
build one scan-log row whose status is computed once from the
validation result, add it to scanLogs, then enqueue it for sync.
`logId`/`qId` stand for the two `crypto.randomUUID()` calls, `now` for
`new Date()`, `deviceIdent` for `navigator.userAgent`. -/
def processScan (db : DB) (now : Int) (logId qId : String)
    (code userId : String) (location : Option String)
    (deviceIdent : String) : DB × ScanResult :=
  let validationResult := validateBarcode db now code
  let scanLog : ScanLog :=
    { id := logId,
      barcodeId := jsOrDefault (validationResult.barcode.map Barcode.id) "unknown",
      examId := jsOrDefault (validationResult.exam.map Exam.id) "unknown",
      studentId := jsOrDefault (validationResult.barcode.map Barcode.studentId) "unknown",
      status :=
        if validationResult.isValid then ScanStatus.valid
        else if jsIncludes validationResult.message "expired" then ScanStatus.expired
        else ScanStatus.invalid,
      scannedBy := userId,
      scannedAt := now,
      location := location,
      deviceId := some deviceIdent,
      syncStatus := SyncStatus.pending,
      syncedAt := none,
      notes := some validationResult.message }
  let db1 := db.scanLogsAdd scanLog
  let db2 := addToSyncQueue db1 qId now SyncAction.create TableName.scanLogs
    scanLog.id (SyncPayload.scanLogRecord scanLog)
  (db2,
   { success := true,
     message := validationResult.message,
     scanLog := some scanLog,
     examName := validationResult.exam.map Exam.title,
     studentId := validationResult.barcode.map Barcode.studentId })

/-- JavaScript ToInt32: wrap an integer into the signed 32-bit range,
as `hash & hash` and `<<` do in the source hash loop. -/
def toInt32 (n : Int) : Int :=
  if n.emod 4294967296 < 2147483648 then n.emod 4294967296
  else n.emod 4294967296 - 4294967296

/-- One iteration of the fallback hash loop in hashPassword
(src/utils/auth.ts): `hash = ((hash << 5) - hash) + char; hash = hash & hash`.
`hash << 5` operates on the Int32 value and wraps, the outer `& hash`
wraps the sum again. -/
def jsHashStep (hash : Int) (c : Nat) : Int :=
  toInt32 (toInt32 (hash * 32) - hash + c)

/-- The fallback hash accumulator over the password characters,
starting from 0.  `charCodeAt` is modelled by the character code. -/
def jsHash (password : String) : Int :=
  password.data.foldl (fun h ch => jsHashStep h ch.toNat) 0

/-- Hexadecimal digit character for a value below 16. -/
def hexDigit (n : Nat) : Char :=
  if n < 10 then Char.ofNat (48 + n) else Char.ofNat (87 + n)

/-- Hexadecimal digit list of a natural number, most significant first
(JavaScript Number.prototype.toString(16) on a non-negative integer). -/
def natToHexDigits (n : Nat) : List Char :=
  if _h : n < 16 then [hexDigit n]
  else natToHexDigits (n / 16) ++ [hexDigit (n % 16)]
termination_by n
decreasing_by exact Nat.div_lt_self (by omega) (by omega)

/-- JavaScript `n.toString(16)` on an integer: sign, then hex digits of
the absolute value. -/
def intToHexString (n : Int) : String :=
  if n < 0 then "-" ++ String.mk (natToHexDigits n.natAbs)
  else String.mk (natToHexDigits n.natAbs)

/-- hashPassword (src/utils/auth.ts lines 10-26): hard-coded MD5 values
for the two demo passwords, otherwise the non-cryptographic fallback
hash rendered in lowercase hex. -/
def hashPassword (password : String) : String :=
  if password == "admin" then "14c4b06b824ec593239362517f538b29"
  else if password == "test" then "098f6bcd4621d373cade4e832627b4f6"
  else intToHexString (jsHash password)

/-- Payload of the base64 "token" built by generateOfflineToken
(src/utils/auth.ts lines 111-122).  `btoa(JSON.stringify(payload))` is
injective on payloads, so the token is modelled by the payload. -/
structure TokenPayload where
  id : String
  username : String
  role : Role
  exp : Int
deriving DecidableEq, Repr

/-- generateOfflineToken: 7-day expiry from the current time. -/
def generateOfflineToken (user : User) (now : Int) : TokenPayload :=
  { id := user.id, username := user.username, role := user.role,
    exp := now + 7 * 24 * 60 * 60 * 1000 }

/-- The user-facing slice of a User kept in localforage under
USER_DATA_KEY. -/
structure StoredUserData where
  id : String
  username : String
  role : Role
deriving DecidableEq, Repr

/-- The localforage store used by the auth module: AUTH_TOKEN_KEY and
USER_DATA_KEY. -/
structure AuthStore where
  authToken : Option TokenPayload := none
  userData : Option StoredUserData := none
deriving DecidableEq, Repr

/-- Result shape of login. -/
structure LoginResult where
  success : Bool
  message : String
  user : Option User := none
deriving DecidableEq, Repr

/-- login (src/utils/auth.ts lines 29-69): find the user by username,
compare password hashes, and only on success update lastLogin and store
the offline token and user data. -/
def login (db : DB) (auth : AuthStore) (now : Int)
    (username password : String) : DB × AuthStore × LoginResult :=
  match db.users.find? (fun u => u.username == username) with
  | none => (db, auth, { success := false, message := "User not found" })
  | some user =>
    if user.passwordHash != hashPassword password then
      (db, auth, { success := false, message := "Invalid password" })
    else
      let db1 := db.usersUpdateLastLogin user.id now
      let token := generateOfflineToken user now
      let auth1 : AuthStore :=
        { authToken := some token,
          userData := some { id := user.id, username := user.username,
                             role := user.role } }
      (db1, auth1,
       { success := true, message := "Login successful", user := some user })

/-- MAX_RETRY_ATTEMPTS (src/utils/sync.ts). -/
def MAX_RETRY_ATTEMPTS : Nat := 5

/-- Result shape of syncData. -/
structure SyncResult where
  success : Bool
  message : String
  syncedItems : Option Nat := none
deriving DecidableEq, Repr

/-- One iteration of the syncData loop: remove the item from the queue
and, when it targets the scanLogs table, mark the referenced scan log
as synced. -/
def syncStep (now : Int) (db : DB) (item : SyncQueueItem) : DB :=
  let db1 := db.syncQueueRemove item.id
  if item.table == TableName.scanLogs then
    db1.scanLogsMarkSynced item.recordId now
  else db1

/-- syncData (src/utils/sync.ts lines 173-221): when offline, fail
without touching anything; otherwise take every queued item with fewer
than MAX_RETRY_ATTEMPTS attempts, delete each from the queue (marking
scan logs synced), and report success with the item count.  No network
transport exists: the result is a pure function of the local state. -/
def syncData (online : Bool) (now : Int) (db : DB) : DB × SyncResult :=
  if !online then
    (db, { success := false, message := "Device is offline" })
  else
    let queueItems := db.syncQueue.filter (fun q => q.attempts < MAX_RETRY_ATTEMPTS)
    if queueItems.length == 0 then
      (db, { success := true, message := "No items to sync", syncedItems := some 0 })
    else
      let db2 := queueItems.foldl (syncStep now) db
      (db2,
       { success := true,
         message := "Synced " ++ toString queueItems.length ++ " items",
         syncedItems := some queueItems.length })

/-- Seeded admin account (src/utils/seed.ts lines 18-24). -/
def seedAdminUser (now : Int) : User :=
  { id := "1", username := "admin",
    passwordHash := "14c4b06b824ec593239362517f538b29",
    role := Role.admin, lastLogin := now }

/-- Seeded examiner account (src/utils/seed.ts lines 25-31). -/
def seedExaminerUser (now : Int) : User :=
  { id := "2", username := "examiner",
    passwordHash := "098f6bcd4621d373cade4e832627b4f6",
    role := Role.examiner, lastLogin := now }

/-- Seed users (src/utils/seed.ts lines 17-32). -/
def seedUsers (now : Int) : List User :=
  [seedAdminUser now, seedExaminerUser now]

/-- Seed exams (src/utils/seed.ts lines 35-90); expiry offsets are the
day counts from the source, in milliseconds relative to `now`. -/
def seedExams (now : Int) : List Exam :=
  [{ id := "1", title := "Java Programming Final Exam", subject := "Java",
     date := "", expiryDate := now + 30 * 86400000,
     createdAt := now, updatedAt := now },
   { id := "2", title := "PHP Programming Midterm", subject := "PHP",
     date := "", expiryDate := now + 15 * 86400000,
     createdAt := now, updatedAt := now },
   { id := "3", title := "Python Programming Exam", subject := "Python",
     date := "", expiryDate := now + 7 * 86400000,
     createdAt := now, updatedAt := now },
   { id := "4", title := "JavaScript Fundamentals", subject := "JavaScript",
     date := "", expiryDate := now + 10 * 86400000,
     createdAt := now, updatedAt := now },
   { id := "5", title := "Operating Systems & Lab",
     subject := "Operating Systems & Lab",
     date := "", expiryDate := now + 20 * 86400000,
     createdAt := now, updatedAt := now },
   { id := "6", title := "Expired Exam", subject := "Biology",
     date := "", expiryDate := now - 5 * 86400000,
     createdAt := now, updatedAt := now }]

/-- Seed barcodes (src/utils/seed.ts lines 93-175). -/
def seedBarcodes (now : Int) : List Barcode :=
  [{ id := "1", code := "JAV2023001", examId := "1", studentId := "STU001",
     isValid := true, createdAt := now, updatedAt := now },
   { id := "2", code := "JAV2023002", examId := "1", studentId := "STU002",
     isValid := true, createdAt := now, updatedAt := now },
   { id := "3", code := "PHP2023001", examId := "2", studentId := "STU001",
     isValid := true, createdAt := now, updatedAt := now },
   { id := "4", code := "PHP2023002", examId := "2", studentId := "STU003",
     isValid := false, createdAt := now, updatedAt := now },
   { id := "5", code := "PYT2023001", examId := "3", studentId := "STU004",
     isValid := true, createdAt := now, updatedAt := now },
   { id := "6", code := "PYT2023002", examId := "3", studentId := "STU005",
     isValid := true, createdAt := now, updatedAt := now },
   { id := "7", code := "JS2023001", examId := "4", studentId := "STU006",
     isValid := true, createdAt := now, updatedAt := now },
   { id := "8", code := "OS2023001", examId := "5", studentId := "STU007",
     isValid := true, createdAt := now, updatedAt := now },
   { id := "9", code := "BIO2023001", examId := "6", studentId := "STU008",
     isValid := true, createdAt := now, updatedAt := now }]

/-- Sample scan logs added by the seeder (src/utils/seed.ts lines
187-211); `logId1`/`logId2` stand for the `crypto.randomUUID()` calls. -/
def seedScanLogs (now : Int) (logId1 logId2 : String) : List ScanLog :=
  [{ id := logId1, barcodeId := "1", examId := "1", studentId := "STU001",
     status := ScanStatus.valid, scannedBy := "1",
     scannedAt := now - 2 * 3600000, syncStatus := SyncStatus.synced,
     syncedAt := some (now - 3 * 1800000), notes := some "Barcode is valid" },
   { id := logId2, barcodeId := "4", examId := "2", studentId := "STU003",
     status := ScanStatus.invalid, scannedBy := "2",
     scannedAt := now - 3600000, syncStatus := SyncStatus.pending,
     notes := some "Barcode marked as invalid" }]

/-- seedDatabase (src/utils/seed.ts): no-op when users already exist,
otherwise bulk-add the demo users, exams, barcodes and sample logs. -/
def seedDatabase (db : DB) (now : Int) (logId1 logId2 : String) : DB :=
  if db.users.length > 0 then db
  else
    { db with users := db.users ++ seedUsers now,
              exams := db.exams ++ seedExams now,
              barcodes := db.barcodes ++ seedBarcodes now,
              scanLogs := db.scanLogs ++ seedScanLogs now logId1 logId2,
              journal := db.journal ++ [DBEvent.seeded] }

/-- The state-mutating operations of the embedded app, for invariants
quantified over "every operation".  saveExamMarks touches the sync
queue only through its addToSyncQueue call, which opAddToSyncQueue
covers. -/
inductive Op where
  | opLogin (auth : AuthStore) (now : Int) (username password : String)
  | opProcessScan (now : Int) (logId qId code userId : String)
      (location : Option String) (deviceIdent : String)
  | opAddToSyncQueue (qId : String) (now : Int) (action : SyncAction)
      (tbl : TableName) (recordId : String) (payload : SyncPayload)
  | opSyncData (online : Bool) (now : Int)
  | opSeedDatabase (now : Int) (logId1 logId2 : String)
deriving Repr

/-- The database reached after running one operation. -/
def applyOp (db : DB) : Op → DB
  | Op.opLogin auth now username password => (login db auth now username password).1
  | Op.opProcessScan now logId qId code userId location deviceIdent =>
      (processScan db now logId qId code userId location deviceIdent).1
  | Op.opAddToSyncQueue qId now action tbl recordId payload =>
      addToSyncQueue db qId now action tbl recordId payload
  | Op.opSyncData online now => (syncData online now db).1
  | Op.opSeedDatabase now logId1 logId2 => seedDatabase db now logId1 logId2

/-- Every queued sync item carries a zero attempts counter. -/
def AllAttemptsZero (db : DB) : Prop :=
  ∀ q ∈ db.syncQueue, q.attempts = 0

/-- A scan log with its two sync bookkeeping fields blanked; two logs
agree on every field except syncStatus and syncedAt iff their cores are
equal. -/
def coreOf (l : ScanLog) : ScanLog :=
  { l with syncStatus := SyncStatus.pending, syncedAt := none }

/-!  Helper lemmas about the lookup and branch structure. -/

theorem exam_lookup_self (db : DB) (eid : String) (e : Exam)
    (He : db.exams.find? (fun x => x.id == eid) = some e) :
    db.exams.find? (fun x => x.id == e.id) = some e := by
  have h1 := List.find?_some He
  have h2 : e.id = eid := by simpa using h1
  rw [h2]
  exact He

theorem isExamExpired_of_found (db : DB) (now : Int) (eid : String) (e : Exam)
    (He : db.exams.find? (fun x => x.id == eid) = some e) :
    isExamExpired db now e.id = decide (e.expiryDate < now) := by
  unfold isExamExpired
  rw [exam_lookup_self db eid e He]

theorem validateBarcode_notFound (db : DB) (now : Int) (code : String)
    (h : db.barcodes.find? (fun b => b.code == code) = none) :
    validateBarcode db now code =
      { isValid := false, message := "Barcode not found in database" } := by
  unfold validateBarcode
  rw [h]

theorem validateBarcode_flagInvalid (db : DB) (now : Int) (code : String)
    (b : Barcode) (Hb : db.barcodes.find? (fun x => x.code == code) = some b)
    (hv : b.isValid = false) :
    validateBarcode db now code =
      { isValid := false, barcode := some b,
        message := "Barcode marked as invalid" } := by
  unfold validateBarcode
  rw [Hb]
  simp [hv]

theorem validateBarcode_examMissing (db : DB) (now : Int) (code : String)
    (b : Barcode) (Hb : db.barcodes.find? (fun x => x.code == code) = some b)
    (hv : b.isValid = true)
    (He : db.exams.find? (fun x => x.id == b.examId) = none) :
    validateBarcode db now code =
      { isValid := false, barcode := some b,
        message := "Associated exam not found" } := by
  unfold validateBarcode
  rw [Hb]
  simp [hv, He]

theorem validateBarcode_examExpired (db : DB) (now : Int) (code : String)
    (b : Barcode) (e : Exam)
    (Hb : db.barcodes.find? (fun x => x.code == code) = some b)
    (hv : b.isValid = true)
    (He : db.exams.find? (fun x => x.id == b.examId) = some e)
    (hx : e.expiryDate < now) :
    validateBarcode db now code =
      { isValid := false, barcode := some b, exam := some e,
        message := "Exam has expired" } := by
  unfold validateBarcode
  rw [Hb]
  simp [hv, He, isExamExpired_of_found db now b.examId e He, hx]

theorem validateBarcode_ok (db : DB) (now : Int) (code : String)
    (b : Barcode) (e : Exam)
    (Hb : db.barcodes.find? (fun x => x.code == code) = some b)
    (hv : b.isValid = true)
    (He : db.exams.find? (fun x => x.id == b.examId) = some e)
    (hx : ¬ e.expiryDate < now) :
    validateBarcode db now code =
      { isValid := true, barcode := some b, exam := some e,
        message := "Barcode is valid" } := by
  unfold validateBarcode
  rw [Hb]
  simp [hv, He, isExamExpired_of_found db now b.examId e He, hx]

theorem jsIncludes_expired_msg : jsIncludes "Exam has expired" "expired" = true := by
  decide

/-- Concrete exam fixture (unexpired at time 0) for witness theorems. -/
def witExamLive : Exam :=
  { id := "e1", title := "Java Final", subject := "Java", date := "",
    expiryDate := 100, createdAt := 0, updatedAt := 0 }

/-- Concrete exam fixture (expired at time 0) for witness theorems. -/
def witExamOld : Exam :=
  { id := "e2", title := "Old Exam", subject := "Biology", date := "",
    expiryDate := -100, createdAt := 0, updatedAt := 0 }

/-- Barcode fixture pointing at the live exam. -/
def witBarcodeLive : Barcode :=
  { id := "b1", code := "CODE1", examId := "e1", studentId := "s1",
    isValid := true, createdAt := 0, updatedAt := 0 }

/-- Barcode fixture pointing at the expired exam. -/
def witBarcodeOld : Barcode :=
  { id := "b2", code := "CODE2", examId := "e2", studentId := "s2",
    isValid := true, createdAt := 0, updatedAt := 0 }

/-- Database fixture for witness theorems. -/
def witDB : DB :=
  { exams := [witExamLive, witExamOld],
    barcodes := [witBarcodeLive, witBarcodeOld],
    scanLogs := [], users := [], syncQueue := [], journal := [] }

/-- C1: a barcode code with no matching record in the store is reported
invalid, with message "Barcode not found in database" and no barcode or
exam attached. -/
theorem unknown_barcode_reported_invalid (db : DB) (now : Int) (code : String)
    (h : ∀ b ∈ db.barcodes, b.code ≠ code) :
    validateBarcode db now code =
      { isValid := false, barcode := none, exam := none,
        message := "Barcode not found in database" } := by
  apply validateBarcode_notFound
  rw [List.find?_eq_none]
  intro x hx
  simpa using h x hx

theorem unknown_barcode_reported_invalid_witness :
    validateBarcode witDB 0 "NOPE" =
      { isValid := false, barcode := none, exam := none,
        message := "Barcode not found in database" } :=
  unknown_barcode_reported_invalid witDB 0 "NOPE" (by decide)

/-- C9: an exam id with no matching Exam record is treated as expired:
isExamExpired returns true. -/
theorem missing_exam_is_expired (db : DB) (now : Int) (examId : String)
    (h : ∀ e ∈ db.exams, e.id ≠ examId) :
    isExamExpired db now examId = true := by
  unfold isExamExpired
  have hn : db.exams.find? (fun e => e.id == examId) = none := by
    rw [List.find?_eq_none]
    intro x hx
    simpa using h x hx
  rw [hn]

theorem missing_exam_is_expired_witness :
    isExamExpired witDB 0 "missing" = true :=
  missing_exam_is_expired witDB 0 "missing" (by decide)

/-- C4: validateBarcode is exactly the three sequential checks (barcode
exists, barcode flagged valid, associated exam present and unexpired):
it returns invalid with the corresponding message at the first failing
check, returns valid when all pass, and its verdict is equivalent to
the conjunction of the checks — no further conditions exist. -/
theorem validation_is_three_sequential_checks (db : DB) (now : Int) (code : String) :
    (db.barcodes.find? (fun x => x.code == code) = none →
      validateBarcode db now code =
        { isValid := false, barcode := none, exam := none,
          message := "Barcode not found in database" }) ∧
    (∀ b, db.barcodes.find? (fun x => x.code == code) = some b →
      b.isValid = false →
      validateBarcode db now code =
        { isValid := false, barcode := some b, exam := none,
          message := "Barcode marked as invalid" }) ∧
    (∀ b, db.barcodes.find? (fun x => x.code == code) = some b →
      b.isValid = true →
      db.exams.find? (fun x => x.id == b.examId) = none →
      validateBarcode db now code =
        { isValid := false, barcode := some b, exam := none,
          message := "Associated exam not found" }) ∧
    (∀ b e, db.barcodes.find? (fun x => x.code == code) = some b →
      b.isValid = true →
      db.exams.find? (fun x => x.id == b.examId) = some e →
      e.expiryDate < now →
      validateBarcode db now code =
        { isValid := false, barcode := some b, exam := some e,
          message := "Exam has expired" }) ∧
    (∀ b e, db.barcodes.find? (fun x => x.code == code) = some b →
      b.isValid = true →
      db.exams.find? (fun x => x.id == b.examId) = some e →
      ¬ e.expiryDate < now →
      validateBarcode db now code =
        { isValid := true, barcode := some b, exam := some e,
          message := "Barcode is valid" }) ∧
    ((validateBarcode db now code).isValid = true ↔
      ∃ b, db.barcodes.find? (fun x => x.code == code) = some b ∧
        b.isValid = true ∧
        ∃ e, db.exams.find? (fun x => x.id == b.examId) = some e ∧
          ¬ e.expiryDate < now) := by
  refine ⟨validateBarcode_notFound db now code,
    fun b Hb hv => validateBarcode_flagInvalid db now code b Hb hv,
    fun b Hb hv He => validateBarcode_examMissing db now code b Hb hv He,
    fun b e Hb hv He hx => validateBarcode_examExpired db now code b e Hb hv He hx,
    fun b e Hb hv He hx => validateBarcode_ok db now code b e Hb hv He hx, ?_, ?_⟩
  · intro h
    rcases hfb : db.barcodes.find? (fun x => x.code == code) with _ | b
    · rw [validateBarcode_notFound db now code hfb] at h
      simp at h
    · rcases hbv : b.isValid with _ | _
      · rw [validateBarcode_flagInvalid db now code b hfb hbv] at h
        simp at h
      · rcases hfe : db.exams.find? (fun x => x.id == b.examId) with _ | e
        · rw [validateBarcode_examMissing db now code b hfb hbv hfe] at h
          simp at h
        · by_cases hx : e.expiryDate < now
          · rw [validateBarcode_examExpired db now code b e hfb hbv hfe hx] at h
            simp at h
          · exact ⟨b, hfb, hbv, e, hfe, hx⟩
  · rintro ⟨b, Hb, hv, e, He, hx⟩
    rw [validateBarcode_ok db now code b e Hb hv He hx]

theorem validation_is_three_sequential_checks_witness :
    validateBarcode witDB 0 "CODE1" =
      { isValid := true, barcode := some witBarcodeLive,
        exam := some witExamLive, message := "Barcode is valid" } :=
  (validation_is_three_sequential_checks witDB 0 "CODE1").2.2.2.2.1
    witBarcodeLive witExamLive (by decide) (by decide) (by decide) (by decide)

/-- C2: scanning a code whose barcode record exists and is flagged
valid but whose exam expired strictly before the current time yields
isValid = false with message "Exam has expired" from validateBarcode,
and the scan log that processScan creates carries status expired. -/
theorem expired_exam_scan_logged_expired (db : DB) (now : Int)
    (logId qId code userId deviceIdent : String) (location : Option String)
    (b : Barcode) (e : Exam)
    (Hb : db.barcodes.find? (fun x => x.code == code) = some b)
    (hv : b.isValid = true)
    (He : db.exams.find? (fun x => x.id == b.examId) = some e)
    (hx : e.expiryDate < now) :
    validateBarcode db now code =
      { isValid := false, barcode := some b, exam := some e,
        message := "Exam has expired" } ∧
    ∃ log,
      (processScan db now logId qId code userId location deviceIdent).2.scanLog
        = some log ∧
      (processScan db now logId qId code userId location deviceIdent).1.scanLogs
        = db.scanLogs ++ [log] ∧
      log.status = ScanStatus.expired := by
  have hvb := validateBarcode_examExpired db now code b e Hb hv He hx
  refine ⟨hvb, ?_⟩
  simp only [processScan, hvb]
  refine ⟨_, rfl, rfl, ?_⟩
  simp [jsIncludes_expired_msg]

theorem expired_exam_scan_logged_expired_witness :
    validateBarcode witDB 0 "CODE2" =
      { isValid := false, barcode := some witBarcodeOld,
        exam := some witExamOld, message := "Exam has expired" } ∧
    ∃ log,
      (processScan witDB 0 "log1" "q1" "CODE2" "u1" none "dev").2.scanLog
        = some log ∧
      (processScan witDB 0 "log1" "q1" "CODE2" "u1" none "dev").1.scanLogs
        = witDB.scanLogs ++ [log] ∧
      log.status = ScanStatus.expired :=
  expired_exam_scan_logged_expired witDB 0 "log1" "q1" "CODE2" "u1" "dev" none
    witBarcodeOld witExamOld (by decide) (by decide) (by decide) (by decide)

/-- C5: processing a valid, unexpired barcode appends exactly one scan
log with status valid and exactly one sync-queue row referencing it;
the journal shows the scan-log write happens before the sync-queue
write and that no other rows are created by the call. -/
theorem valid_scan_one_log_one_queue_row (db : DB) (now : Int)
    (logId qId code userId deviceIdent : String) (location : Option String)
    (b : Barcode) (e : Exam)
    (Hb : db.barcodes.find? (fun x => x.code == code) = some b)
    (hv : b.isValid = true)
    (He : db.exams.find? (fun x => x.id == b.examId) = some e)
    (hx : ¬ e.expiryDate < now) :
    ∃ log q,
      (processScan db now logId qId code userId location deviceIdent).2.scanLog
        = some log ∧
      (processScan db now logId qId code userId location deviceIdent).1.scanLogs
        = db.scanLogs ++ [log] ∧
      log.status = ScanStatus.valid ∧
      (processScan db now logId qId code userId location deviceIdent).1.syncQueue
        = db.syncQueue ++ [q] ∧
      q.recordId = log.id ∧
      q.table = TableName.scanLogs ∧
      (processScan db now logId qId code userId location deviceIdent).1.journal
        = db.journal ++ [DBEvent.scanLogAdded log, DBEvent.syncQueueAdded q] := by
  have hvb := validateBarcode_ok db now code b e Hb hv He hx
  simp only [processScan, hvb]
  refine ⟨_, _, rfl, rfl, rfl, rfl, rfl, rfl, ?_⟩
  simp [DB.scanLogsAdd, addToSyncQueue, DB.syncQueueAdd]

theorem valid_scan_one_log_one_queue_row_witness :
    ∃ log q,
      (processScan witDB 0 "log1" "q1" "CODE1" "u1" none "dev").2.scanLog
        = some log ∧
      (processScan witDB 0 "log1" "q1" "CODE1" "u1" none "dev").1.scanLogs
        = witDB.scanLogs ++ [log] ∧
      log.status = ScanStatus.valid ∧
      (processScan witDB 0 "log1" "q1" "CODE1" "u1" none "dev").1.syncQueue
        = witDB.syncQueue ++ [q] ∧
      q.recordId = log.id ∧
      q.table = TableName.scanLogs ∧
      (processScan witDB 0 "log1" "q1" "CODE1" "u1" none "dev").1.journal
        = witDB.journal ++ [DBEvent.scanLogAdded log, DBEvent.syncQueueAdded q] :=
  valid_scan_one_log_one_queue_row witDB 0 "log1" "q1" "CODE1" "u1" "dev" none
    witBarcodeLive witExamLive (by decide) (by decide) (by decide) (by decide)

/-- C10: login leaves the database and the auth store untouched on
every failing attempt — no token or user data is stored and no
lastLogin is updated. -/
theorem login_failure_is_atomic (db : DB) (auth : AuthStore) (now : Int)
    (u p : String)
    (h : (login db auth now u p).2.2.success = false) :
    (login db auth now u p).1 = db ∧ (login db auth now u p).2.1 = auth := by
  unfold login at h ⊢
  rcases hf : db.users.find? (fun x => x.username == u) with _ | user <;>
    simp only [hf] at h ⊢
  · exact ⟨trivial, trivial⟩
  · by_cases hp : user.passwordHash = hashPassword p
    · exfalso
      simp [hp] at h
    · have hbne : (user.passwordHash != hashPassword p) = true := by
        simpa [bne_iff_ne] using hp
      simp only [hbne, if_true] at h ⊢
      exact ⟨trivial, trivial⟩

theorem login_failure_is_atomic_witness :
    (login witDB {} 0 "nobody" "pw").1 = witDB ∧
    (login witDB {} 0 "nobody" "pw").2.1 = ({} : AuthStore) :=
  login_failure_is_atomic witDB {} 0 "nobody" "pw" (by decide)

/-!  Frame lemmas for syncData. -/

theorem coreOf_scanLogSyncUpdate (now : Int) (rid : String) (l : ScanLog) :
    coreOf (scanLogSyncUpdate now rid l) = coreOf l := by
  unfold scanLogSyncUpdate coreOf
  split <;> rfl

theorem syncStep_scanLogs (now : Int) (db : DB) (item : SyncQueueItem) :
    (syncStep now db item).scanLogs =
      if item.table == TableName.scanLogs then
        db.scanLogs.map (scanLogSyncUpdate now item.recordId)
      else db.scanLogs := by
  unfold syncStep DB.syncQueueRemove DB.scanLogsMarkSynced
  split <;> rfl

theorem syncStep_core (now : Int) (db : DB) (item : SyncQueueItem) (i : Nat) :
    ((syncStep now db item).scanLogs.get? i).map coreOf
      = (db.scanLogs.get? i).map coreOf := by
  rw [syncStep_scanLogs]
  split
  · rw [List.get?_map]
    rcases db.scanLogs.get? i with _ | l
    · rfl
    · simp [coreOf_scanLogSyncUpdate]
  · rfl

theorem foldl_syncStep_core (now : Int) :
    ∀ (items : List SyncQueueItem) (db : DB) (i : Nat),
    ((items.foldl (syncStep now) db).scanLogs.get? i).map coreOf
      = (db.scanLogs.get? i).map coreOf
  | [], _, _ => rfl
  | item :: items, db, i => by
    rw [List.foldl_cons, foldl_syncStep_core now items (syncStep now db item) i,
      syncStep_core now db item i]

theorem syncData_offline (now : Int) (db : DB) :
    syncData false now db =
      (db, { success := false, message := "Device is offline" }) := rfl

theorem syncData_online_empty (now : Int) (db : DB)
    (hq : (db.syncQueue.filter
        (fun q => decide (q.attempts < MAX_RETRY_ATTEMPTS))).length = 0) :
    syncData true now db =
      (db, { success := true, message := "No items to sync",
             syncedItems := some 0 }) := by
  simp [syncData, hq]

theorem syncData_online_nonempty (now : Int) (db : DB)
    (hq : ¬ (db.syncQueue.filter
        (fun q => decide (q.attempts < MAX_RETRY_ATTEMPTS))).length = 0) :
    syncData true now db =
      ((db.syncQueue.filter
          (fun q => decide (q.attempts < MAX_RETRY_ATTEMPTS))).foldl
            (syncStep now) db,
       { success := true,
         message := "Synced " ++
           toString (db.syncQueue.filter
             (fun q => decide (q.attempts < MAX_RETRY_ATTEMPTS))).length ++
           " items",
         syncedItems := some (db.syncQueue.filter
           (fun q => decide (q.attempts < MAX_RETRY_ATTEMPTS))).length }) := by
  simp [syncData, hq]

/-- A further scan-log fixture together with a queued sync row
referencing it. -/
def witLog : ScanLog :=
  { id := "L1", barcodeId := "b1", examId := "e1", studentId := "s1",
    status := ScanStatus.valid, scannedBy := "1", scannedAt := 0,
    syncStatus := SyncStatus.pending }

/-- A queued sync item referencing `witLog`. -/
def witQItem : SyncQueueItem :=
  { id := "Q1", action := SyncAction.create, table := TableName.scanLogs,
    recordId := "L1", data := SyncPayload.scanLogRecord witLog,
    attempts := 0, createdAt := 0 }

/-- Database fixture holding one scan log and one queued sync row. -/
def witDBLog : DB :=
  { exams := [], barcodes := [], scanLogs := [witLog], users := [],
    syncQueue := [witQItem], journal := [] }

/-- C6: a scan log's status is assigned once at scan time: syncData
only ever rewrites a row's syncStatus and syncedAt fields (the core of
every row — status included — is untouched), and processScan leaves
every pre-existing scan-log row entirely unchanged. -/
theorem scan_log_status_written_once (online : Bool) (now : Int) (db : DB)
    (i : Nat) (logId qId code userId deviceIdent : String)
    (location : Option String) :
    (((syncData online now db).1.scanLogs.get? i).map coreOf
       = (db.scanLogs.get? i).map coreOf) ∧
    (i < db.scanLogs.length →
      (processScan db now logId qId code userId location deviceIdent).1.scanLogs.get? i
        = db.scanLogs.get? i) := by
  constructor
  · cases online
    · rw [syncData_offline]
    · by_cases hq : (db.syncQueue.filter
          (fun q => decide (q.attempts < MAX_RETRY_ATTEMPTS))).length = 0
      · rw [syncData_online_empty now db hq]
      · rw [syncData_online_nonempty now db hq]
        exact foldl_syncStep_core now _ db i
  · intro hi
    simp only [processScan]
    exact List.get?_append hi

theorem scan_log_status_written_once_witness :
    (((syncData true 7 witDBLog).1.scanLogs.get? 0).map coreOf
       = (witDBLog.scanLogs.get? 0).map coreOf) ∧
    ((processScan witDBLog 0 "l2" "q2" "X" "u" none "d").1.scanLogs.get? 0
       = witDBLog.scanLogs.get? 0) :=
  ⟨(scan_log_status_written_once true 7 witDBLog 0 "l2" "q2" "X" "u" "d" none).1,
   (scan_log_status_written_once true 7 witDBLog 0 "l2" "q2" "X" "u" "d" none).2
     (by decide)⟩

theorem syncStep_syncQueue (now : Int) (db : DB) (item : SyncQueueItem) :
    (syncStep now db item).syncQueue =
      db.syncQueue.filter (fun q => !(q.id == item.id)) := by
  unfold syncStep DB.syncQueueRemove DB.scanLogsMarkSynced
  split <;> rfl

theorem foldl_syncStep_syncQueue (now : Int) :
    ∀ (items : List SyncQueueItem) (db : DB),
    (items.foldl (syncStep now) db).syncQueue =
      db.syncQueue.filter (fun q => items.all (fun it => !(q.id == it.id)))
  | [], db => by simp
  | item :: items, db => by
    rw [List.foldl_cons, foldl_syncStep_syncQueue now items (syncStep now db item),
      syncStep_syncQueue, List.filter_filter]
    apply List.filter_congr
    intro a _
    rw [List.all_cons]
    exact Bool.and_comm _ _

/-- C7: online syncData removes from the queue exactly the items with
fewer than MAX_RETRY_ATTEMPTS attempts (items at or above the cap
remain), reports success, and returns syncedItems equal to the number
of removed items (0 when none qualify).  `syncData` is a pure function
of the local state: no transport is involved.  The id-uniqueness
hypothesis reflects that SyncQueue.id is the table's primary key. -/
theorem online_sync_drains_queue (now : Int) (db : DB)
    (hids : (db.syncQueue.map SyncQueueItem.id).Nodup) :
    (syncData true now db).1.syncQueue
      = db.syncQueue.filter
          (fun q => !(decide (q.attempts < MAX_RETRY_ATTEMPTS))) ∧
    (syncData true now db).2.success = true ∧
    (syncData true now db).2.syncedItems
      = some (db.syncQueue.countP
          (fun q => decide (q.attempts < MAX_RETRY_ATTEMPTS))) := by
  by_cases hq : (db.syncQueue.filter
      (fun q => decide (q.attempts < MAX_RETRY_ATTEMPTS))).length = 0
  · rw [syncData_online_empty now db hq]
    have hnil : db.syncQueue.filter
        (fun q => decide (q.attempts < MAX_RETRY_ATTEMPTS)) = [] :=
      List.length_eq_zero.mp hq
    have hall : ∀ a ∈ db.syncQueue, ¬ (decide (a.attempts < MAX_RETRY_ATTEMPTS)) = true :=
      List.filter_eq_nil_iff.mp hnil
    refine ⟨?_, rfl, ?_⟩
    · have : db.syncQueue.filter
          (fun q => !(decide (q.attempts < MAX_RETRY_ATTEMPTS))) = db.syncQueue := by
        rw [List.filter_eq_self]
        intro a ha
        simpa using hall a ha
      rw [this]
    · rw [List.countP_eq_length_filter, hq]
  · rw [syncData_online_nonempty now db hq]
    refine ⟨?_, rfl, ?_⟩
    · rw [foldl_syncStep_syncQueue]
      apply List.filter_congr
      intro a ha
      by_cases hp : a.attempts < MAX_RETRY_ATTEMPTS
      · have hmem : a ∈ db.syncQueue.filter
            (fun q => decide (q.attempts < MAX_RETRY_ATTEMPTS)) :=
          List.mem_filter.mpr ⟨ha, by simpa using hp⟩
        have hfalse : (db.syncQueue.filter
            (fun q => decide (q.attempts < MAX_RETRY_ATTEMPTS))).all
              (fun it => !(a.id == it.id)) = false :=
          List.all_eq_false.mpr ⟨a, hmem, by simp⟩
        rw [hfalse]
        simp [hp]
      · have htrue : (db.syncQueue.filter
            (fun q => decide (q.attempts < MAX_RETRY_ATTEMPTS))).all
              (fun it => !(a.id == it.id)) = true := by
          rw [List.all_eq_true]
          intro it hit
          have hit' := List.mem_filter.mp hit
          have hne : a ≠ it := by
            intro hcontra
            rw [hcontra] at hp
            exact hp (by simpa using hit'.2)
          have hidne : a.id ≠ it.id := by
            intro hcontra
            exact hne (List.inj_on_of_nodup_map hids ha hit'.1 hcontra)
          simpa using hidne
        rw [htrue]
        simp [hp]
    · rw [List.countP_eq_length_filter]

theorem online_sync_drains_queue_witness :
    (syncData true 3 witDBLog).1.syncQueue
      = witDBLog.syncQueue.filter
          (fun q => !(decide (q.attempts < MAX_RETRY_ATTEMPTS))) ∧
    (syncData true 3 witDBLog).2.success = true ∧
    (syncData true 3 witDBLog).2.syncedItems
      = some (witDBLog.syncQueue.countP
          (fun q => decide (q.attempts < MAX_RETRY_ATTEMPTS))) :=
  online_sync_drains_queue 3 witDBLog (by decide)

theorem login_syncQueue (db : DB) (auth : AuthStore) (now : Int) (u p : String) :
    (login db auth now u p).1.syncQueue = db.syncQueue := by
  unfold login
  rcases hf : db.users.find? (fun x => x.username == u) with _ | user <;>
    simp only [hf]
  split <;> rfl

theorem processScan_queue_shape (db : DB) (now : Int)
    (logId qId code userId deviceIdent : String) (location : Option String) :
    ∃ item,
      (processScan db now logId qId code userId location deviceIdent).1.syncQueue
        = db.syncQueue ++ [item] ∧ item.attempts = 0 :=
  ⟨_, rfl, rfl⟩

theorem addToSyncQueue_shape (db : DB) (qId : String) (now : Int)
    (action : SyncAction) (tbl : TableName) (recordId : String)
    (payload : SyncPayload) :
    ∃ item,
      (addToSyncQueue db qId now action tbl recordId payload).syncQueue
        = db.syncQueue ++ [item] ∧ item.attempts = 0 :=
  ⟨_, rfl, rfl⟩

theorem syncData_queue_subset (online : Bool) (now : Int) (db : DB) :
    ∀ q ∈ (syncData online now db).1.syncQueue, q ∈ db.syncQueue := by
  cases online
  · rw [syncData_offline]
    exact fun q hq => hq
  · by_cases hq0 : (db.syncQueue.filter
        (fun q => decide (q.attempts < MAX_RETRY_ATTEMPTS))).length = 0
    · rw [syncData_online_empty now db hq0]
      exact fun q hq => hq
    · rw [syncData_online_nonempty now db hq0]
      intro q hq
      rw [foldl_syncStep_syncQueue] at hq
      exact (List.mem_filter.mp hq).1

theorem seedDatabase_syncQueue (db : DB) (now : Int) (l1 l2 : String) :
    (seedDatabase db now l1 l2).syncQueue = db.syncQueue := by
  unfold seedDatabase
  split <;> rfl

/-- C8 counterexample: a failed sync attempt (offline syncData, which
returns success = false) leaves the queued item's attempts counter at
0 — the increment of the attempt counter that the claim asserts never
happens anywhere in the code. -/
theorem failed_sync_does_not_increment_attempts :
    (syncData false 11 witDBLog).2.success = false ∧
    (syncData false 11 witDBLog).1.syncQueue.map SyncQueueItem.attempts
      = [0] := by
  decide

/-- C8 (amended): every sync-queue item is created with attempts = 0
(addToSyncQueue, the sole enqueue point, appends a row with a zero
counter), and no operation of the app ever increments or modifies the
counter — the all-zero invariant is preserved by every operation,
failed syncs included; the only read of the counter is syncData's
attempts-below-cap filter. -/
theorem attempts_counter_never_modified :
    (∀ (db : DB) (qId : String) (now : Int) (action : SyncAction)
      (tbl : TableName) (recordId : String) (payload : SyncPayload),
      ∃ item,
        (addToSyncQueue db qId now action tbl recordId payload).syncQueue
          = db.syncQueue ++ [item] ∧ item.attempts = 0) ∧
    (∀ (db : DB) (op : Op),
      AllAttemptsZero db → AllAttemptsZero (applyOp db op)) := by
  refine ⟨fun db qId now action tbl recordId payload =>
    addToSyncQueue_shape db qId now action tbl recordId payload, ?_⟩
  intro db op hz
  cases op with
  | opLogin auth now u p =>
    intro q hq
    rw [applyOp, login_syncQueue] at hq
    exact hz q hq
  | opProcessScan now logId qId code userId location deviceIdent =>
    obtain ⟨item, hshape, hatt⟩ :=
      processScan_queue_shape db now logId qId code userId deviceIdent location
    intro q hq
    rw [applyOp, hshape] at hq
    rcases List.mem_append.mp hq with hmem | hmem
    · exact hz q hmem
    · rw [List.mem_singleton.mp hmem]
      exact hatt
  | opAddToSyncQueue qId now action tbl recordId payload =>
    obtain ⟨item, hshape, hatt⟩ :=
      addToSyncQueue_shape db qId now action tbl recordId payload
    intro q hq
    rw [applyOp, hshape] at hq
    rcases List.mem_append.mp hq with hmem | hmem
    · exact hz q hmem
    · rw [List.mem_singleton.mp hmem]
      exact hatt
  | opSyncData online now =>
    intro q hq
    rw [applyOp] at hq
    exact hz q (syncData_queue_subset online now db q hq)
  | opSeedDatabase now l1 l2 =>
    intro q hq
    rw [applyOp, seedDatabase_syncQueue] at hq
    exact hz q hq

theorem attempts_counter_never_modified_witness :
    AllAttemptsZero (applyOp witDBLog (Op.opSyncData false 4)) :=
  attempts_counter_never_modified.2 witDBLog (Op.opSyncData false 4)
    (by intro q hq; simp [witDBLog, witQItem] at hq; rw [hq])

/-!  The fallback hash can never collide with the two 32-character
demo hashes: its hex rendering of a 32-bit value is at most 9
characters long. -/

theorem toInt32_bounds (n : Int) :
    -2147483648 ≤ toInt32 n ∧ toInt32 n < 2147483648 := by
  unfold toInt32
  have h0 : 0 ≤ n.emod 4294967296 := Int.emod_nonneg n (by norm_num)
  have h1 : n.emod 4294967296 < 4294967296 :=
    Int.emod_lt_of_pos n (by norm_num)
  split <;> omega

theorem jsHash_bounds (p : String) :
    -2147483648 ≤ jsHash p ∧ jsHash p < 2147483648 := by
  unfold jsHash
  suffices h : ∀ (l : List Char) (a : Int),
      -2147483648 ≤ a → a < 2147483648 →
      -2147483648 ≤ l.foldl (fun h ch => jsHashStep h ch.toNat) a ∧
      l.foldl (fun h ch => jsHashStep h ch.toNat) a < 2147483648 from
    h p.data 0 (by norm_num) (by norm_num)
  intro l
  induction l with
  | nil => exact fun a h1 h2 => ⟨h1, h2⟩
  | cons c cs ih =>
    intro a _ _
    rw [List.foldl_cons]
    exact ih (jsHashStep a c.toNat)
      (toInt32_bounds _).1 (toInt32_bounds _).2

theorem natToHexDigits_length_le :
    ∀ (k n : Nat), 0 < k → n < 16 ^ k → (natToHexDigits n).length ≤ k := by
  intro k
  induction k with
  | zero => omega
  | succ k ih =>
    intro n _ hn
    unfold natToHexDigits
    split
    · simp
    · rename_i h16
      rw [List.length_append]
      have hk : 0 < k := by
        rcases Nat.eq_zero_or_pos k with hk0 | hk0
        · subst hk0
          simp at hn
          omega
        · exact hk0
      have hdiv : n / 16 < 16 ^ k := by
        rw [Nat.div_lt_iff_lt_mul (by norm_num : 0 < 16)]
        calc n < 16 ^ (k + 1) := hn
          _ = 16 ^ k * 16 := by ring
      have := ih (n / 16) hk hdiv
      simp only [List.length_cons, List.length_nil]
      omega

theorem intToHexString_length_le (n : Int)
    (h1 : -2147483648 ≤ n) (h2 : n < 2147483648) :
    (intToHexString n).length ≤ 9 := by
  have habs : n.natAbs < 16 ^ 8 := by
    have h16 : (16 : Nat) ^ 8 = 4294967296 := by norm_num
    omega
  have hlen := natToHexDigits_length_le 8 n.natAbs (by norm_num) habs
  unfold intToHexString
  split
  · rw [String.length_append]
    have hminus : ("-" : String).length = 1 := rfl
    rw [hminus, String.length_mk]
    omega
  · rw [String.length_mk]
    omega

theorem hashPassword_fallback_short (p : String)
    (h1 : p ≠ "admin") (h2 : p ≠ "test") :
    (hashPassword p).length ≤ 9 := by
  unfold hashPassword
  rw [if_neg (by simpa using h1), if_neg (by simpa using h2)]
  exact intToHexString_length_le _ (jsHash_bounds p).1 (jsHash_bounds p).2

theorem hashPassword_ne_admin_hash (p : String) (h1 : p ≠ "admin") :
    hashPassword p ≠ "14c4b06b824ec593239362517f538b29" := by
  by_cases h2 : p = "test"
  · subst h2
    decide
  · intro hcontra
    have hshort := hashPassword_fallback_short p h1 h2
    rw [hcontra] at hshort
    have h32 : ("14c4b06b824ec593239362517f538b29" : String).length = 32 := by
      decide
    omega

theorem hashPassword_ne_test_hash (p : String) (h2 : p ≠ "test") :
    hashPassword p ≠ "098f6bcd4621d373cade4e832627b4f6" := by
  by_cases h1 : p = "admin"
  · subst h1
    decide
  · intro hcontra
    have hshort := hashPassword_fallback_short p h1 h2
    rw [hcontra] at hshort
    have h32 : ("098f6bcd4621d373cade4e832627b4f6" : String).length = 32 := by
      decide
    omega

/-- C3: against the seeded user store, login succeeds exactly for
("admin", "admin") and ("examiner", "test"); every other pair fails
with "User not found" or "Invalid password". -/
theorem demo_accounts_authenticate (now0 now : Int) (db : DB)
    (auth : AuthStore) (u p : String) (hu : db.users = seedUsers now0) :
    ((login db auth now u p).2.2.success = true ↔
      (u = "admin" ∧ p = "admin") ∨ (u = "examiner" ∧ p = "test")) ∧
    ((login db auth now u p).2.2.success = false →
      (login db auth now u p).2.2.message = "User not found" ∨
      (login db auth now u p).2.2.message = "Invalid password") := by
  unfold login
  rw [hu]
  by_cases hua : u = "admin"
  · subst hua
    have hf : (seedUsers now0).find? (fun x => x.username == "admin")
        = some (seedAdminUser now0) := rfl
    simp only [hf]
    by_cases hpa : p = "admin"
    · subst hpa
      have hbne : ((seedAdminUser now0).passwordHash != hashPassword "admin")
          = false := rfl
      simp only [hbne, Bool.false_eq_true, if_false]
      constructor
      · simp
      · intro h
        simp at h
    · have hne := hashPassword_ne_admin_hash p hpa
      have hbne : ((seedAdminUser now0).passwordHash != hashPassword p)
          = true := by
        simp only [seedAdminUser, bne_iff_ne]
        exact Ne.symm hne
      simp only [hbne, if_true]
      constructor
      · constructor
        · intro h
          exact absurd h (by simp)
        · rintro (⟨_, hp2⟩ | ⟨hu2, _⟩)
          · exact absurd hp2 hpa
          · exact absurd hu2 (by decide)
      · intro _
        right
        trivial
  · by_cases hue : u = "examiner"
    · subst hue
      have hf : (seedUsers now0).find? (fun x => x.username == "examiner")
          = some (seedExaminerUser now0) := rfl
      simp only [hf]
      by_cases hpt : p = "test"
      · subst hpt
        have hbne : ((seedExaminerUser now0).passwordHash != hashPassword "test")
            = false := rfl
        simp only [hbne, Bool.false_eq_true, if_false]
        constructor
        · simp
        · intro h
          simp at h
      · have hne := hashPassword_ne_test_hash p hpt
        have hbne : ((seedExaminerUser now0).passwordHash != hashPassword p)
            = true := by
          simp only [seedExaminerUser, bne_iff_ne]
          exact Ne.symm hne
        simp only [hbne, if_true]
        constructor
        · constructor
          · intro h
            exact absurd h (by simp)
          · rintro (⟨hu2, _⟩ | ⟨_, hp2⟩)
            · exact absurd hu2 (by decide)
            · exact absurd hp2 hpt
        · intro _
          right
          trivial
    · have hf : (seedUsers now0).find? (fun x => x.username == u) = none := by
        rw [List.find?_eq_none]
        intro x hx
        simp only [seedUsers, List.mem_cons, List.not_mem_nil, or_false] at hx
        rcases hx with hx | hx <;> rw [hx]
        · simpa [seedAdminUser] using Ne.symm hua
        · simpa [seedExaminerUser] using Ne.symm hue
      simp only [hf]
      constructor
      · constructor
        · intro h
          exact absurd h (by simp)
        · rintro (⟨hu2, _⟩ | ⟨hu2, _⟩)
          · exact absurd hu2 hua
          · exact absurd hu2 hue
      · intro _
        left
        trivial

/-- A database seeded by seedDatabase from an empty store. -/
def witSeededDB : DB :=
  seedDatabase
    { exams := [], barcodes := [], scanLogs := [], users := [],
      syncQueue := [], journal := [] } 0 "sl1" "sl2"

theorem demo_accounts_authenticate_witness :
    (login witSeededDB {} 5 "admin" "admin").2.2.success = true :=
  (demo_accounts_authenticate 0 5 witSeededDB {} "admin" "admin" rfl).1.mpr
    (Or.inl ⟨rfl, rfl⟩)
